import Mathlib

/-
Verification of the Golf Genius MCP server core (main.py): the auth router,
the request executor with its retry-on-rate-limit policy, the status-code
to error-kind mapping, the response normalizer (_extract / _sanitize_ids),
and the per-tool input validation short-circuits.

Python JSON-decoded values are embedded as the mutually inductive family
PyVal / PyList / PyObj (dicts are insertion-ordered association lists with
unique keys, as Python dicts are). Python floats are modeled as exact
rational numbers; the only float operations the code performs are int()
truncation toward zero and str() rendering.
-/

mutual

inductive PyVal where
  | null
  | bool (b : Bool)
  | int (n : Int)
  | float (q : Rat)
  | str (s : String)
  | list (xs : PyList)
  | dict (xs : PyObj)
deriving DecidableEq

inductive PyList where
  | nil
  | cons (v : PyVal) (tl : PyList)
deriving DecidableEq

inductive PyObj where
  | nil
  | cons (k : String) (v : PyVal) (tl : PyObj)
deriving DecidableEq

end

/-- Conversion from a Lean list literal, for readable concrete examples. -/
def PyList.ofList : List PyVal → PyList
  | [] => .nil
  | v :: tl => .cons v (PyList.ofList tl)

/-- Conversion from a Lean association-list literal. -/
def PyObj.ofList : List (String × PyVal) → PyObj
  | [] => .nil
  | (k, v) :: tl => .cons k v (PyObj.ofList tl)

/-- Membership test for a dict key: Python `key in data`. -/
def PyObj.hasKey : PyObj → String → Bool
  | .nil, _ => false
  | .cons k _ tl, key => if k = key then true else tl.hasKey key

/-- Lookup of a dict key (first occurrence): Python `data[key]` / `data.get(key)`. -/
def PyObj.get : PyObj → String → Option PyVal
  | .nil, _ => Option.none
  | .cons k v tl, key => if k = key then some v else tl.get key

/-- Python `data.get(key, default)`. -/
def PyObj.getD (xs : PyObj) (key : String) (dflt : PyVal) : PyVal :=
  (xs.get key).getD dflt

/-- Python `isinstance(value, (int, float))`. Python bools are instances of int. -/
def isNumeric : PyVal → Bool
  | .bool _ => true
  | .int _ => true
  | .float _ => true
  | _ => false

/-- Values that are neither a dict nor a list (the leaves of a decoded body). -/
def isScalar : PyVal → Bool
  | .list _ => false
  | .dict _ => false
  | _ => true

/-- Truncation of a rational toward zero, the rounding of Python `int(float)`. -/
def ratTrunc (q : Rat) : Int :=
  if q.num < 0 then -((q.num.natAbs / q.den : Nat) : Int)
  else ((q.num.natAbs / q.den : Nat) : Int)

/-- Python `int(value)` on a numeric value (bool, int or float). -/
def pyToInt : PyVal → Int
  | .bool b => if b then 1 else 0
  | .int n => n
  | .float q => ratTrunc q
  | _ => 0

/-- The single-quote character, written by code point to keep source plain. -/
def squote : Char := Char.ofNat 39

/-- Hexadecimal digit character for `n < 16`. -/
def hexDigit (n : Nat) : Char :=
  if n < 10 then Char.ofNat (48 + n) else Char.ofNat (87 + n)

/-- Escape of one character inside a Python string repr with quote `qc`.
Backslash, the quote character, newline, carriage return and tab are
backslash-escaped; other control characters become a hex escape; everything
else passes through (ASCII model of CPython repr). -/
def escChar (qc : Char) (c : Char) : List Char :=
  if c = '\\' then ['\\', '\\']
  else if c = qc then ['\\', qc]
  else if c = '\n' then ['\\', 'n']
  else if c = '\r' then ['\\', 'r']
  else if c = '\t' then ['\\', 't']
  else if c.toNat < 32 ∨ c.toNat = 127 then
    ['\\', 'x', hexDigit (c.toNat / 16 % 16), hexDigit (c.toNat % 16)]
  else [c]

/-- Python `repr(s)` for a string: single-quoted unless the string contains a
single quote and no double quote. -/
def pyStrRepr (s : String) : String :=
  let qc := if s.data.contains squote && !(s.data.contains '"') then '"' else squote
  String.mk (qc :: s.data.foldr (fun c acc => escChar qc c ++ acc) [qc])

/-- Decimal digits of the fractional part `rem / den`, fuel-capped at the
precision CPython ever prints. -/
def fracDigits (den : Nat) : Nat → Nat → List Char
  | _, 0 => []
  | rem, fuel + 1 =>
    if rem = 0 then []
    else Char.ofNat (48 + rem * 10 / den) :: fracDigits den (rem * 10 % den) fuel

/-- Python `repr(float)` for floats modeled as exact rationals: integral
values render with a trailing `.0`, others with their decimal expansion. -/
def floatRepr (q : Rat) : String :=
  let sign := if q.num < 0 then "-" else ""
  let ip := q.num.natAbs / q.den
  let frac := fracDigits q.den (q.num.natAbs % q.den) 17
  sign ++ toString ip ++ "." ++ (if frac = [] then "0" else String.mk frac)

mutual

/-- Python `repr(value)`. Containers render their elements with repr; dict
items render as quoted key, colon-space, value, comma-space separated. -/
def pyRepr : PyVal → String
  | .null => "None"
  | .bool b => if b then "True" else "False"
  | .int n => toString n
  | .float q => floatRepr q
  | .str s => pyStrRepr s
  | .list xs => "[" ++ pyReprList xs ++ "]"
  | .dict xs => "\x7b" ++ pyReprObj xs ++ "\x7d"

def pyReprList : PyList → String
  | .nil => ""
  | .cons v .nil => pyRepr v
  | .cons v tl => pyRepr v ++ ", " ++ pyReprList tl

def pyReprObj : PyObj → String
  | .nil => ""
  | .cons k v .nil => pyStrRepr k ++ ": " ++ pyRepr v
  | .cons k v tl => pyStrRepr k ++ ": " ++ pyRepr v ++ ", " ++ pyReprObj tl

end

/-- Python `str(value)`: identity on strings, repr on everything else. -/
def pyStr : PyVal → String
  | .str s => s
  | v => pyRepr v

/-- Python whitespace characters recognized by `str.strip` and the regex
class `\s` (ASCII model). -/
def isPySpace (c : Char) : Bool :=
  c = ' ' || c = '\t' || c = '\n' || c = '\r' || c = '\x0b' || c = '\x0c'

/-- Digit run of a Python integer literal after its first digit: single
underscores are allowed between digits. `acc` is the value read so far. -/
def digitsLoop (acc : Nat) : List Char → Option Nat
  | [] => some acc
  | c :: rest =>
    if c.isDigit then digitsLoop (acc * 10 + (c.toNat - 48)) rest
    else if c = '_' then
      match rest with
      | d :: rest2 =>
        if d.isDigit then digitsLoop (acc * 10 + (d.toNat - 48)) rest2
        else Option.none
      | [] => Option.none
    else Option.none

/-- Nonempty digit run, leading character must be a digit. -/
def parseDigits : List Char → Option Nat
  | [] => Option.none
  | c :: rest => if c.isDigit then digitsLoop (c.toNat - 48) rest else Option.none

/-- Python `int(s)` on a string: surrounding whitespace stripped, optional
sign, base-10 digits with single underscores between digits; `Option.none`
models the `ValueError` raise (ASCII-digit model). -/
def pyParseInt (s : String) : Option Int :=
  let t := ((s.data.dropWhile isPySpace).reverse.dropWhile isPySpace).reverse
  match t with
  | [] => Option.none
  | c :: rest =>
    if c = '-' then (parseDigits rest).map (fun n => -(n : Int))
    else if c = '+' then (parseDigits rest).map (fun n => (n : Int))
    else (parseDigits (c :: rest)).map (fun n => (n : Int))

/-- Characters admitted by the regex class `[^@\s]`. -/
def emailAtomChar (c : Char) : Bool := !(c = '@') && !(isPySpace c)

/-- Split of a character list at every occurrence of `c` (the separator is
dropped), the character-level form of Python `str.split`. -/
def splitOnChar (c : Char) : List Char → List (List Char)
  | [] => [[]]
  | x :: xs =>
    match splitOnChar c xs with
    | [] => [[x]]
    | h :: t => if x = c then [] :: h :: t else (x :: h) :: t

/-- True when the last character of the list is a newline. -/
def lastIsNewline : List Char → Bool
  | [] => false
  | [c] => c = '\n'
  | _ :: tl => lastIsNewline tl

/-- Match of the body of the email pattern `^[^@\s]+@[^@\s]+\.[^@\s]+$`:
exactly one at-sign, a nonempty atom before it, and after it a nonempty
whitespace-free run containing a dot that is neither first nor last. -/
def emailCore (s : String) : Bool :=
  match splitOnChar '@' s.data with
  | [a, b] =>
    !(a.isEmpty) && a.all emailAtomChar && b.all emailAtomChar &&
      ((b.drop 1).dropLast.contains '.')
  | _ => false

/-- Python `re.match` of the email pattern: the regex anchor `$` also
matches just before one trailing newline. -/
def emailMatch (s : String) : Bool :=
  emailCore s || (lastIsNewline s.data && emailCore (String.mk s.data.dropLast))

/-- Match of the body of `DATE_PATTERN`, `^\d{4}-\d{2}-\d{2}$`
(ASCII-digit model of `\d`). -/
def dateCore (s : String) : Bool :=
  match s.data with
  | [a, b, c, d, h1, e, f, h2, g, i] =>
    a.isDigit && b.isDigit && c.isDigit && d.isDigit && h1 = '-' &&
      e.isDigit && f.isDigit && h2 = '-' && g.isDigit && i.isDigit
  | _ => false

/-- Python `DATE_PATTERN.match`: `$` also matches before one trailing newline. -/
def dateMatch (s : String) : Bool :=
  dateCore s || (lastIsNewline s.data && dateCore (String.mk s.data.dropLast))

/-- Python `s.lstrip(c)`: drop every leading occurrence of `c`. -/
def lstrip (s : String) (c : Char) : String :=
  String.mk (s.data.dropWhile (fun x => x = c))

/-- Python `s.upper()` (ASCII model). -/
def pyUpper (s : String) : String :=
  String.mk (s.data.map Char.toUpper)

/-- Fixed base of every request target, from main.py. -/
def BASE_URL : String := "https://www.golfgenius.com/api_v2"

/-- Model of `_build_url`: GET requests embed the API key as a path segment
right after the base; write requests do not. Leading slashes of the endpoint
are stripped. -/
def _build_url (api_key method endpoint : String) : String :=
  if pyUpper method = "GET" then
    BASE_URL ++ "/" ++ api_key ++ "/" ++ lstrip endpoint '/'
  else
    BASE_URL ++ "/" ++ lstrip endpoint '/'

/-- Model of `_write_headers`: bearer authorization plus JSON content type. -/
def _write_headers (api_key : String) : List (String × String) :=
  [("Authorization", "Bearer " ++ api_key), ("Content-Type", "application/json")]

/-- One step of Python `dict.update`: replace the value of an existing key in
place, otherwise append the new entry. -/
def updateKey : List (String × String) → String → String → List (String × String)
  | [], k, v => [(k, v)]
  | (k0, v0) :: tl, k, v =>
    if k0 = k then (k0, v) :: tl else (k0, v0) :: updateKey tl k v

/-- Python `old.update(upd)` on string dicts (headers). -/
def pyDictUpdate (old upd : List (String × String)) : List (String × String) :=
  upd.foldl (fun acc kv => updateKey acc kv.1 kv.2) old

/-- Headers the executor sends: for non-GET methods the caller-supplied
headers updated with `_write_headers` (make_api_request lines 196-200);
GET requests pass caller headers through untouched. -/
def requestHeaders (api_key method : String)
    (caller : List (String × String)) : List (String × String) :=
  if pyUpper method = "GET" then caller
  else pyDictUpdate caller (_write_headers api_key)

/-- First-match lookup in a header list. -/
def headerGet : List (String × String) → String → Option String
  | [], _ => Option.none
  | (k, v) :: tl, key => if k = key then some v else headerGet tl key

/-- The three raised exception kinds of the error taxonomy. -/
inductive ApiRaise where
  | rateLimit (retry_after : Option Int)
  | auth
  | notFound (resource : String)
deriving DecidableEq

/-- Message built by each exception constructor. `RateLimitError` formats the
hint only when it is truthy (`None` and `0` both fall to the bare message). -/
def ApiRaise.message : ApiRaise → String
  | .rateLimit (some n) =>
    if n = 0 then "Rate limited."
    else "Rate limited. Retry after " ++ toString n ++ "s"
  | .rateLimit Option.none => "Rate limited."
  | .auth => "Invalid or expired API key."
  | .notFound resource => resource ++ " not found."

/-- Status code stored by each exception constructor; `AuthenticationError`
hard-codes 401 in its `super().__init__` call. -/
def ApiRaise.status_code : ApiRaise → Nat
  | .rateLimit _ => 429
  | .auth => 401
  | .notFound _ => 404

/-- One upstream HTTP response as the executor observes it. `retryAfter` is
`response.headers.get("Retry-After")`; `jsonBody` is what `response.json()`
would decode. -/
structure Response where
  status_code : Nat
  retryAfter : Option String
  text : String
  jsonBody : PyVal
deriving DecidableEq

/-- Result of one transport attempt: a response, or one of the transport
failures the outer boundary catches (`msg` is `str(e)` of an unexpected
exception). -/
inductive TransportResult where
  | response (r : Response)
  | timeout
  | connectError
  | otherError (msg : String)

/-- Result of one executor call: a raised condition or a returned value
(successful bodies and error maps alike). -/
inductive Outcome where
  | raised (e : ApiRaise)
  | value (v : PyVal)
deriving DecidableEq

/-- Error map `\x7b"error": msg\x7d` returned by the outer boundary. -/
def errMap (msg : String) : PyVal :=
  .dict (.cons "error" (.str msg) .nil)

/-- One attempt of `make_api_request` (the try/except body, lines 202-236):
status branching, the re-raise of the three taxonomy kinds, and the outer
catches that return error maps. A 429 whose Retry-After header does not
parse as an integer makes `int()` raise ValueError, which the final
`except Exception` turns into a Request-failed error map. -/
def make_api_request_once (endpoint : String) : TransportResult → Outcome
  | .response r =>
    if r.status_code = 429 then
      match r.retryAfter with
      | some ra =>
        if ra = "" then .raised (.rateLimit Option.none)
        else
          match pyParseInt ra with
          | some n => .raised (.rateLimit (some n))
          | Option.none =>
            .value (errMap
              ("Request failed: invalid literal for int() with base 10: " ++
                pyStrRepr ra))
      | Option.none => .raised (.rateLimit Option.none)
    else if r.status_code = 401 ∨ r.status_code = 403 then .raised .auth
    else if r.status_code = 404 then .raised (.notFound endpoint)
    else if 200 ≤ r.status_code ∧ r.status_code ≤ 299 then .value r.jsonBody
    else
      .value (errMap ("API Error " ++ toString r.status_code ++ ": " ++ r.text))
  | .timeout => .value (errMap "Request timed out. Please try again.")
  | .connectError =>
    .value (errMap "Unable to connect to Golf Genius API. Check your network connection.")
  | .otherError msg => .value (errMap ("Request failed: " ++ msg))

/-- True exactly on a raised rate-limit outcome, the only condition the
tenacity wrapper retries on (`retry_if_exception_type(RateLimitError)`). -/
def isRateLimited : Outcome → Bool
  | .raised (.rateLimit _) => true
  | _ => false

/-- Tenacity loop with `reraise=True`: attempt `n` runs; while more than one
attempt remains and the outcome is a raised rate limit, try again; the last
allowed attempt's outcome is returned as is. Returns the outcome and the
number of attempts performed. -/
def retryLoop (attempt : Nat → Outcome) (n : Nat) : Nat → Outcome × Nat
  | 0 => (attempt n, n)
  | 1 => (attempt n, n)
  | remaining + 2 =>
    let o := attempt n
    if isRateLimited o then retryLoop attempt (n + 1) (remaining + 1)
    else (o, n)

/-- Model of the decorated `make_api_request`: `stop_after_attempt(3)` and
retry only on `RateLimitError`. `ts i` is the transport result of attempt `i`
(attempts are numbered from 1). -/
def make_api_request (endpoint : String) (ts : Nat → TransportResult) :
    Outcome × Nat :=
  retryLoop (fun i => make_api_request_once endpoint (ts i)) 1 3

mutual

/-- Model of `_sanitize_ids`: in every dict, an `id` entry is replaced by the
string form of the sibling `id_str` value when that key exists, else by the
truncated integer string when the value is numeric; every other entry
recurses; lists recurse elementwise; leaves pass through. -/
def _sanitize_ids : PyVal → PyVal
  | .dict xs => .dict (sanitizeObj xs xs)
  | .list xs => .list (sanitizeList xs)
  | v => v

def sanitizeList : PyList → PyList
  | .nil => .nil
  | .cons v tl => .cons (_sanitize_ids v) (sanitizeList tl)

def sanitizeObj (d : PyObj) : PyObj → PyObj
  | .nil => .nil
  | .cons k v tl =>
    if k = "id" ∧ d.hasKey "id_str" then
      .cons k (.str (pyStr (d.getD "id_str" .null))) (sanitizeObj d tl)
    else if k = "id" ∧ isNumeric v then
      .cons k (.str (toString (pyToInt v))) (sanitizeObj d tl)
    else
      .cons k (_sanitize_ids v) (sanitizeObj d tl)

end

/-- Model of `_extract`: lists are sanitized as is; dicts carrying an
`error` key are returned unchanged; other dicts yield the sanitized value
under `key`, defaulting to the sanitized whole dict; leaves pass through. -/
def _extract (result : PyVal) (key : String) : PyVal :=
  match result with
  | .list _ => _sanitize_ids result
  | .dict xs =>
    if xs.hasKey "error" then result
    else _sanitize_ids (xs.getD key result)
  | _ => result

mutual

/-- Predicate of claim C6/C9: no dict anywhere in the value stores a numeric
(bool, int or float) value under the key `id`. -/
def noNumericId : PyVal → Bool
  | .dict xs => noNumericIdObj xs
  | .list xs => noNumericIdList xs
  | _ => true

def noNumericIdList : PyList → Bool
  | .nil => true
  | .cons v tl => noNumericId v && noNumericIdList tl

def noNumericIdObj : PyObj → Bool
  | .nil => true
  | .cons k v tl =>
    (if k = "id" then !(isNumeric v) else true) && noNumericId v &&
      noNumericIdObj tl

end

mutual

/-- Every dict anywhere in the value that has an `id_str` key maps it to a
scalar (neither dict nor list). -/
def scalarIdStrs : PyVal → Bool
  | .dict xs =>
    (if xs.hasKey "id_str" then isScalar (xs.getD "id_str" .null) else true) &&
      scalarIdStrsObj xs
  | .list xs => scalarIdStrsList xs
  | _ => true

def scalarIdStrsList : PyList → Bool
  | .nil => true
  | .cons v tl => scalarIdStrs v && scalarIdStrsList tl

def scalarIdStrsObj : PyObj → Bool
  | .nil => true
  | .cons _ v tl => scalarIdStrs v && scalarIdStrsObj tl

end

/-- Lookup of a dict key on a PyVal, `Option.none` off dicts. -/
def PyVal.getKey : PyVal → String → Option PyVal
  | .dict xs, key => xs.get key
  | _, _ => Option.none

/-- True when the value is a dict carrying an `error` key. -/
def isErrorDict : PyVal → Bool
  | .dict xs => xs.hasKey "error"
  | _ => false

/-- Observable behavior of one tool call: an error map returned before any
network activity, or a request handed to the executor (query parameters and
JSON payloads are not modeled; they do not bear on any claim). -/
inductive ToolAction where
  | errorMap (msg : String)
  | request (method : String) (endpoint : String)
deriving DecidableEq

/-- True when the tool action reaches the network. -/
def performsNetwork : ToolAction → Bool
  | .request _ _ => true
  | .errorMap _ => false

/-- Model of the `get_master_roster_member` tool validation (lines 386-390). -/
def get_master_roster_member (email : String) : ToolAction :=
  if email = "" ∨ ¬emailMatch email then
    .errorMap "A valid email address is required."
  else .request "GET" ("/master_roster_member/" ++ email)

/-- Model of the `get_player_events` tool validation (lines 400-408). -/
def get_player_events (player_id : String) : ToolAction :=
  match pyParseInt player_id with
  | Option.none => .errorMap "player_id must be a valid integer."
  | some pid =>
    if pid ≤ 0 then .errorMap "player_id must be a positive integer."
    else .request "GET" ("/players/" ++ player_id)

/-- Model of the `create_round` tool validation (lines 713-726): the date is
checked against `DATE_PATTERN` only when truthy (neither None nor empty). -/
def create_round (event_id : Int) (date : Option String) : ToolAction :=
  if event_id ≤ 0 then .errorMap "event_id must be a positive integer."
  else if (match date with
           | some s => !(s = "") && !(dateMatch s)
           | Option.none => false) then
    .errorMap "Date must be in YYYY-MM-DD format."
  else .request "POST" ("/events/" ++ toString event_id ++ "/rounds")

theorem headerGet_updateKey_self (l : List (String × String)) (k v : String) :
    headerGet (updateKey l k v) k = some v := by
  induction l with
  | nil => simp [updateKey, headerGet]
  | cons hd tl ih =>
    obtain ⟨k0, v0⟩ := hd
    by_cases h : k0 = k
    · simp [updateKey, headerGet, h]
    · simp [updateKey, headerGet, h, ih]

theorem headerGet_updateKey_ne (l : List (String × String)) (k v key : String)
    (h : key ≠ k) : headerGet (updateKey l k v) key = headerGet l key := by
  induction l with
  | nil => simp [updateKey, headerGet, Ne.symm h]
  | cons hd tl ih =>
    obtain ⟨k0, v0⟩ := hd
    by_cases h0 : k0 = k
    · subst h0
      simp [updateKey, headerGet, Ne.symm h]
    · by_cases h1 : k0 = key <;> simp [updateKey, headerGet, h, h0, h1, ih]

theorem hasKey_eq_isSome_get (xs : PyObj) (key : String) :
    xs.hasKey key = (xs.get key).isSome := by
  cases xs with
  | nil => rfl
  | cons k v tl =>
    by_cases h : k = key <;>
      simp [PyObj.hasKey, PyObj.get, h, hasKey_eq_isSome_get tl key]

theorem sanitizeObj_hasKey (d xs : PyObj) (key : String) :
    (sanitizeObj d xs).hasKey key = xs.hasKey key := by
  cases xs with
  | nil => rfl
  | cons k v tl =>
    simp only [sanitizeObj]
    split_ifs <;> simp [PyObj.hasKey, sanitizeObj_hasKey d tl key]

theorem sanitizeObj_get_ne (d xs : PyObj) (key : String) (h : key ≠ "id") :
    (sanitizeObj d xs).get key = (xs.get key).map _sanitize_ids := by
  cases xs with
  | nil => rfl
  | cons k v tl =>
    by_cases hk : k = key
    · subst hk
      have hid : ¬(k = "id") := h
      simp [sanitizeObj, hid, PyObj.get]
    · simp only [sanitizeObj]
      split_ifs <;> simp [PyObj.get, hk, sanitizeObj_get_ne d tl key h]

theorem sanitizeObj_get_id_withStr (d xs : PyObj) (h : d.hasKey "id_str" = true) :
    (sanitizeObj d xs).get "id" =
      (xs.get "id").map (fun _ => .str (pyStr (d.getD "id_str" .null))) := by
  cases xs with
  | nil => rfl
  | cons k v tl =>
    by_cases hk : k = "id"
    · subst hk
      simp [sanitizeObj, h, PyObj.get]
    · simp only [sanitizeObj]
      split_ifs with h1 h2
      · exact absurd h1.1 hk
      · exact absurd h2.1 hk
      · simp [PyObj.get, hk, sanitizeObj_get_id_withStr d tl h]

theorem sanitizeObj_get_id_noStr (d xs : PyObj) (h : d.hasKey "id_str" = false) :
    (sanitizeObj d xs).get "id" =
      (xs.get "id").map
        (fun v => if isNumeric v then .str (toString (pyToInt v))
                  else _sanitize_ids v) := by
  cases xs with
  | nil => rfl
  | cons k v tl =>
    by_cases hk : k = "id"
    · subst hk
      by_cases hn : isNumeric v = true
      · simp [sanitizeObj, h, hn, PyObj.get]
      · simp [sanitizeObj, h, hn, PyObj.get]
    · simp only [sanitizeObj]
      split_ifs with h1 h2
      · exact absurd h1.1 hk
      · exact absurd h2.1 hk
      · simp [PyObj.get, hk, sanitizeObj_get_id_noStr d tl h]

theorem sanitize_scalar (v : PyVal) (h : isScalar v = true) :
    _sanitize_ids v = v := by
  cases v <;> simp_all [isScalar, _sanitize_ids]

theorem isNumeric_sanitize (v : PyVal) :
    isNumeric (_sanitize_ids v) = isNumeric v := by
  cases v <;> rfl

mutual

theorem noNum_sanitize (v : PyVal) : noNumericId (_sanitize_ids v) = true := by
  cases v with
  | dict xs => simp [_sanitize_ids, noNumericId, noNum_sanitizeObj xs xs]
  | list xs => simp [_sanitize_ids, noNumericId, noNum_sanitizeList xs]
  | null => rfl
  | bool b => rfl
  | int n => rfl
  | float q => rfl
  | str s => rfl

theorem noNum_sanitizeList (xs : PyList) :
    noNumericIdList (sanitizeList xs) = true := by
  cases xs with
  | nil => rfl
  | cons v tl =>
    simp [sanitizeList, noNumericIdList, noNum_sanitize v, noNum_sanitizeList tl]

theorem noNum_sanitizeObj (d xs : PyObj) :
    noNumericIdObj (sanitizeObj d xs) = true := by
  cases xs with
  | nil => rfl
  | cons k v tl =>
    simp only [sanitizeObj]
    split_ifs with h1 h2
    · simp [noNumericIdObj, noNumericId, isNumeric, noNum_sanitizeObj d tl]
    · simp [noNumericIdObj, noNumericId, isNumeric, noNum_sanitizeObj d tl]
    · by_cases hk : k = "id"
      · have hnv : isNumeric v = false :=
          Bool.eq_false_iff.mpr (fun hb => h2 ⟨hk, hb⟩)
        simp [noNumericIdObj, hk, isNumeric_sanitize, hnv, noNum_sanitize v,
          noNum_sanitizeObj d tl]
      · simp [noNumericIdObj, hk, noNum_sanitize v, noNum_sanitizeObj d tl]

end

mutual

theorem sanitize_idem (v : PyVal) (h : scalarIdStrs v = true) :
    _sanitize_ids (_sanitize_ids v) = _sanitize_ids v := by
  cases v with
  | dict xs =>
    have hsplit := h
    simp only [scalarIdStrs, Bool.and_eq_true] at hsplit
    have h1 : xs.hasKey "id_str" = true → isScalar (xs.getD "id_str" .null) = true := by
      intro hk
      have := hsplit.1
      simpa [hk] using this
    simp only [_sanitize_ids]
    rw [sanitizeObj_idem xs xs h1 hsplit.2]
  | list xs =>
    simp only [scalarIdStrs] at h
    simp only [_sanitize_ids]
    rw [sanitizeList_idem xs h]
  | null => rfl
  | bool b => rfl
  | int n => rfl
  | float q => rfl
  | str s => rfl

theorem sanitizeList_idem (xs : PyList) (h : scalarIdStrsList xs = true) :
    sanitizeList (sanitizeList xs) = sanitizeList xs := by
  cases xs with
  | nil => rfl
  | cons v tl =>
    simp only [scalarIdStrsList, Bool.and_eq_true] at h
    simp only [sanitizeList]
    rw [sanitize_idem v h.1, sanitizeList_idem tl h.2]

theorem sanitizeObj_idem (xs rest : PyObj)
    (h1 : xs.hasKey "id_str" = true → isScalar (xs.getD "id_str" .null) = true)
    (h2 : scalarIdStrsObj rest = true) :
    sanitizeObj (sanitizeObj xs xs) (sanitizeObj xs rest) = sanitizeObj xs rest := by
  cases rest with
  | nil => rfl
  | cons k v tl =>
    simp only [scalarIdStrsObj, Bool.and_eq_true] at h2
    have hK : (sanitizeObj xs xs).hasKey "id_str" = xs.hasKey "id_str" :=
      sanitizeObj_hasKey xs xs "id_str"
    have htl := sanitizeObj_idem xs tl h1 h2.2
    by_cases hk : k = "id"
    · by_cases hs : xs.hasKey "id_str" = true
      · -- id entry replaced by the string form of the id_str sibling
        obtain ⟨w, hw⟩ : ∃ w, xs.get "id_str" = some w := by
          have := hasKey_eq_isSome_get xs "id_str"
          rw [hs] at this
          exact Option.isSome_iff_exists.mp this.symm
        have hwD : (sanitizeObj xs xs).getD "id_str" .null = xs.getD "id_str" .null := by
          have hne : ("id_str" : String) ≠ "id" := by decide
          have hget := sanitizeObj_get_ne xs xs "id_str" hne
          have hscal : isScalar w = true := by
            have := h1 hs
            simpa [PyObj.getD, hw] using this
          simp [PyObj.getD, hget, hw, sanitize_scalar w hscal]
        simp only [sanitizeObj, hk, hs, hK, true_and, if_true, htl, hwD]
      · have hs2 : xs.hasKey "id_str" = false := Bool.eq_false_iff.mpr hs
        by_cases hn : isNumeric v = true
        · simp only [sanitizeObj, hk, hs2, hn, true_and]
          simp [hK, hs2, isNumeric, _sanitize_ids, htl]
        · have hn2 : isNumeric v = false := Bool.eq_false_iff.mpr hn
          simp only [sanitizeObj, hk, hs2, hn2, true_and]
          simp [hK, hs2, isNumeric_sanitize, hn2, htl, sanitize_idem v h2.1]
    · simp only [sanitizeObj, hk, false_and, if_false]
      simp [hk, htl, sanitize_idem v h2.1]

end

/-- Claim C1: for every GET request the built URL is the base (host plus API
path) followed by a slash, the credential, a slash and the endpoint with its
leading slashes stripped, and the executor attaches no headers; for every
non-GET request the URL is independent of the credential (it never appears
through the router), and the headers merged into the request carry
Authorization `Bearer` plus credential and the JSON content type, these two
overriding caller-supplied entries of the same name while all other caller
headers survive. -/
theorem auth_routing_claim :
    (∀ (api_key method endpoint : String) (caller : List (String × String)),
      pyUpper method = "GET" →
        _build_url api_key method endpoint =
          BASE_URL ++ "/" ++ api_key ++ "/" ++ lstrip endpoint '/' ∧
        requestHeaders api_key method caller = caller) ∧
    (∀ (api_key api_key2 method endpoint : String) (caller : List (String × String)),
      pyUpper method ≠ "GET" →
        _build_url api_key method endpoint = BASE_URL ++ "/" ++ lstrip endpoint '/' ∧
        _build_url api_key method endpoint = _build_url api_key2 method endpoint ∧
        headerGet (requestHeaders api_key method caller) "Authorization" =
          some ("Bearer " ++ api_key) ∧
        headerGet (requestHeaders api_key method caller) "Content-Type" =
          some "application/json" ∧
        (∀ nm : String, nm ≠ "Authorization" → nm ≠ "Content-Type" →
          headerGet (requestHeaders api_key method caller) nm = headerGet caller nm)) := by
  constructor
  · intro api_key method endpoint caller h
    exact ⟨by simp [_build_url, h], by simp [requestHeaders, h]⟩
  · intro api_key api_key2 method endpoint caller h
    refine ⟨by simp [_build_url, h], by simp [_build_url, h], ?_, ?_, ?_⟩
    · simp only [requestHeaders, h, if_false, pyDictUpdate, _write_headers, List.foldl]
      rw [headerGet_updateKey_ne _ _ _ _ (by decide)]
      exact headerGet_updateKey_self _ _ _
    · simp only [requestHeaders, h, if_false, pyDictUpdate, _write_headers, List.foldl]
      exact headerGet_updateKey_self _ _ _
    · intro nm h1 h2
      simp only [requestHeaders, h, if_false, pyDictUpdate, _write_headers, List.foldl]
      rw [headerGet_updateKey_ne _ _ _ _ h2, headerGet_updateKey_ne _ _ _ _ h1]

/-- Claim C1 witness, instantiating both halves at concrete inputs. -/
theorem auth_routing_claim_witness :
    (_build_url "KEY" "get" "//seasons" =
        BASE_URL ++ "/" ++ "KEY" ++ "/" ++ lstrip "//seasons" '/' ∧
      requestHeaders "KEY" "get" [("X-Trace", "1")] = [("X-Trace", "1")]) ∧
    (headerGet (requestHeaders "KEY" "DELETE"
        [("Authorization", "stale"), ("X-Trace", "1")]) "Authorization" =
        some ("Bearer " ++ "KEY") ∧
      headerGet (requestHeaders "KEY" "DELETE"
        [("Authorization", "stale"), ("X-Trace", "1")]) "Content-Type" =
        some "application/json" ∧
      headerGet (requestHeaders "KEY" "DELETE"
        [("Authorization", "stale"), ("X-Trace", "1")]) "X-Trace" =
        headerGet [("Authorization", "stale"), ("X-Trace", "1")] "X-Trace") := by
  obtain ⟨hget, hwrite⟩ := auth_routing_claim
  obtain ⟨u, hdr⟩ := hget "KEY" "get" "//seasons" [("X-Trace", "1")] (by decide)
  obtain ⟨_, _, ha, hc, hrest⟩ :=
    hwrite "KEY" "K2" "DELETE" "/events"
      [("Authorization", "stale"), ("X-Trace", "1")] (by decide)
  exact ⟨⟨u, hdr⟩, ha, hc, hrest "X-Trace" (by decide) (by decide)⟩

/-- Claim C10: a 401 or a 403 upstream status both raise the Authentication
condition, which always stores status code 401 (AuthenticationError passes
401 to the base class regardless of the response status) and the fixed
message. -/
theorem auth_error_claim :
    (∀ (endpoint : String) (r : Response),
      r.status_code = 401 ∨ r.status_code = 403 →
      make_api_request_once endpoint (.response r) = .raised .auth) ∧
    ApiRaise.status_code .auth = 401 ∧
    ApiRaise.message .auth = "Invalid or expired API key." := by
  refine ⟨?_, rfl, rfl⟩
  intro endpoint r h
  rcases h with h | h <;> simp [make_api_request_once, h]

/-- Claim C10 witness: an upstream 403 maps to the Authentication condition
whose stored status is 401. -/
theorem auth_error_claim_witness :
    make_api_request_once "/seasons"
      (.response ⟨403, Option.none, "Forbidden", .null⟩) = .raised .auth ∧
    ApiRaise.status_code .auth = 401 :=
  ⟨auth_error_claim.1 "/seasons" ⟨403, Option.none, "Forbidden", .null⟩ (Or.inr rfl),
    auth_error_claim.2.1⟩

/-- Claim C3 counterexample: a 429 response whose Retry-After header is
present but not an integer does not raise Rate-Limited; the int() parse
failure is caught by the outer boundary and returned as an error map. -/
theorem status_mapping_cex :
    make_api_request_once "/seasons" (.response ⟨429, some "soon", "", .null⟩) =
      .value (errMap ("Request failed: invalid literal for int() with base 10: " ++
        pyStrRepr "soon")) ∧
    isRateLimited
      (make_api_request_once "/seasons" (.response ⟨429, some "soon", "", .null⟩)) =
      false := by decide

/-- Claim C3 (amended): for every request, status 429 raises Rate-Limited
carrying the parsed Retry-After seconds when the header is present, nonempty
and integer-valued, and `Option.none` when it is absent or empty, while a
nonempty non-integer Retry-After is returned as a Request-failed error map;
status 401 or 403 raises Authentication; status 404 raises Not-Found whose
message carries the endpoint name; the raised kinds are values of the
`.raised` constructor, never converted to `.value` error maps. -/
theorem status_mapping_amended :
    (∀ (endpoint : String) (r : Response),
      r.status_code = 429 → r.retryAfter = Option.none →
      make_api_request_once endpoint (.response r) = .raised (.rateLimit Option.none)) ∧
    (∀ (endpoint : String) (r : Response),
      r.status_code = 429 → r.retryAfter = some "" →
      make_api_request_once endpoint (.response r) = .raised (.rateLimit Option.none)) ∧
    (∀ (endpoint : String) (r : Response) (s : String) (n : Int),
      r.status_code = 429 → r.retryAfter = some s → s ≠ "" → pyParseInt s = some n →
      make_api_request_once endpoint (.response r) = .raised (.rateLimit (some n))) ∧
    (∀ (endpoint : String) (r : Response) (s : String),
      r.status_code = 429 → r.retryAfter = some s → s ≠ "" → pyParseInt s = Option.none →
      make_api_request_once endpoint (.response r) =
        .value (errMap ("Request failed: invalid literal for int() with base 10: " ++
          pyStrRepr s))) ∧
    (∀ (endpoint : String) (r : Response),
      r.status_code = 401 ∨ r.status_code = 403 →
      make_api_request_once endpoint (.response r) = .raised .auth) ∧
    (∀ (endpoint : String) (r : Response), r.status_code = 404 →
      make_api_request_once endpoint (.response r) = .raised (.notFound endpoint)) ∧
    (∀ endpoint : String,
      (ApiRaise.notFound endpoint).message = endpoint ++ " not found.") := by
  refine ⟨?_, ?_, ?_, ?_, ?_, ?_, fun _ => rfl⟩
  · intro endpoint r h1 h2
    simp [make_api_request_once, h1, h2]
  · intro endpoint r h1 h2
    simp [make_api_request_once, h1, h2]
  · intro endpoint r s n h1 h2 h3 h4
    simp [make_api_request_once, h1, h2, h3, h4]
  · intro endpoint r s h1 h2 h3 h4
    simp [make_api_request_once, h1, h2, h3, h4]
  · intro endpoint r h
    rcases h with h | h <;> simp [make_api_request_once, h]
  · intro endpoint r h
    simp [make_api_request_once, h]

/-- Claim C3 witness: a parseable Retry-After is carried as the hint, and a
404 carries the endpoint name in the Not-Found message. -/
theorem status_mapping_amended_witness :
    make_api_request_once "/events" (.response ⟨429, some "7", "", .null⟩) =
      .raised (.rateLimit (some 7)) ∧
    make_api_request_once "/events" (.response ⟨404, Option.none, "", .null⟩) =
      .raised (.notFound "/events") ∧
    (ApiRaise.notFound "/events").message = "/events" ++ " not found." := by
  obtain ⟨a1, a2, a3, a4, a5, a6, a7⟩ := status_mapping_amended
  exact ⟨a3 "/events" ⟨429, some "7", "", .null⟩ "7" 7 rfl rfl (by decide) (by decide),
    a6 "/events" ⟨404, Option.none, "", .null⟩ rfl, a7 "/events"⟩

/-- Claim C4: a response status outside 2xx and distinct from 429, 401, 403
and 404 is not raised but returned as an API-Error map; a transport timeout,
a connection failure and any other unexpected exception are likewise
returned as the corresponding fixed error maps. -/
theorem error_map_claim :
    (∀ (endpoint : String) (r : Response),
      r.status_code ≠ 429 → r.status_code ≠ 401 → r.status_code ≠ 403 →
      r.status_code ≠ 404 → ¬(200 ≤ r.status_code ∧ r.status_code ≤ 299) →
      make_api_request_once endpoint (.response r) =
        .value (errMap ("API Error " ++ toString r.status_code ++ ": " ++ r.text))) ∧
    (∀ endpoint : String, make_api_request_once endpoint .timeout =
      .value (errMap "Request timed out. Please try again.")) ∧
    (∀ endpoint : String, make_api_request_once endpoint .connectError =
      .value (errMap
        "Unable to connect to Golf Genius API. Check your network connection.")) ∧
    (∀ endpoint msg : String, make_api_request_once endpoint (.otherError msg) =
      .value (errMap ("Request failed: " ++ msg))) := by
  refine ⟨?_, fun _ => rfl, fun _ => rfl, fun _ _ => rfl⟩
  intro endpoint r h1 h2 h3 h4 h5
  simp [make_api_request_once, h1, h2, h3, h4, h5]

/-- Claim C4 witness: a 500 response becomes an API-Error map. -/
theorem error_map_claim_witness :
    make_api_request_once "/seasons" (.response ⟨500, Option.none, "boom", .null⟩) =
      .value (errMap ("API Error " ++ toString 500 ++ ": " ++ "boom")) :=
  error_map_claim.1 "/seasons" ⟨500, Option.none, "boom", .null⟩
    (by decide) (by decide) (by decide) (by decide) (by decide)

theorem isRateLimited_iff (o : Outcome) :
    isRateLimited o = true ↔ ∃ ra, o = .raised (.rateLimit ra) := by
  cases o with
  | value v => simp [isRateLimited]
  | raised e => cases e <;> simp [isRateLimited]

theorem retryLoop_retry (attempt : Nat → Outcome) (n remaining : Nat)
    (h : isRateLimited (attempt n) = true) :
    retryLoop attempt n (remaining + 2) = retryLoop attempt (n + 1) (remaining + 1) := by
  simp [retryLoop, h]

theorem retryLoop_stop (attempt : Nat → Outcome) (n remaining : Nat)
    (h : isRateLimited (attempt n) = false) :
    retryLoop attempt n (remaining + 2) = (attempt n, n) := by
  simp [retryLoop, h]

theorem once_429_raises (endpoint : String) (r : Response)
    (h429 : r.status_code = 429)
    (hra : r.retryAfter = Option.none ∨ r.retryAfter = some "" ∨
      ∃ s n, r.retryAfter = some s ∧ pyParseInt s = some n) :
    isRateLimited (make_api_request_once endpoint (.response r)) = true := by
  rcases hra with h | h | ⟨s, n, h, hp⟩
  · simp [make_api_request_once, h429, h, isRateLimited]
  · simp [make_api_request_once, h429, h, isRateLimited]
  · by_cases hs : s = ""
    · simp [make_api_request_once, h429, h, hs, isRateLimited]
    · simp [make_api_request_once, h429, h, hs, hp, isRateLimited]

/-- Claim C2 counterexample: an upstream answering 429 on every attempt with
a non-integer Retry-After header does not lead to 3 attempts and a raised
Rate-Limited condition; the executor stops after one attempt with an error
map. -/
theorem retry_policy_cex :
    (make_api_request "/seasons"
      (fun _ => .response ⟨429, some "soon", "", .null⟩)).2 = 1 ∧
    isRateLimited (make_api_request "/seasons"
      (fun _ => .response ⟨429, some "soon", "", .null⟩)).1 = false := by decide

/-- Claim C2 (amended): the retry wrapper retries only on a raised
Rate-Limited outcome — any other outcome of the first attempt is returned
after exactly one attempt — and against an upstream answering 429 with an
absent, empty, or integer Retry-After header on every attempt, the executor
performs exactly 3 attempts and ends with a raised Rate-Limited condition
rather than an error map; a 429 whose nonempty Retry-After does not parse as
an integer is instead returned as an error map (see the counterexample). -/
theorem retry_policy_amended :
    (∀ (endpoint : String) (ts : Nat → TransportResult),
      isRateLimited (make_api_request_once endpoint (ts 1)) = false →
      make_api_request endpoint ts = (make_api_request_once endpoint (ts 1), 1)) ∧
    (∀ (endpoint : String) (ts : Nat → TransportResult),
      (∀ i, ∃ r : Response, ts i = .response r ∧ r.status_code = 429 ∧
        (r.retryAfter = Option.none ∨ r.retryAfter = some "" ∨
          ∃ s n, r.retryAfter = some s ∧ pyParseInt s = some n)) →
      (make_api_request endpoint ts).2 = 3 ∧
      ∃ ra, (make_api_request endpoint ts).1 = .raised (.rateLimit ra)) := by
  constructor
  · intro endpoint ts h
    show retryLoop (fun i => make_api_request_once endpoint (ts i)) 1 (1 + 2) = _
    exact retryLoop_stop _ 1 1 h
  · intro endpoint ts h
    have hRL : ∀ i, isRateLimited (make_api_request_once endpoint (ts i)) = true := by
      intro i
      obtain ⟨r, hts, h429, hra⟩ := h i
      rw [hts]
      exact once_429_raises endpoint r h429 hra
    have hloop : make_api_request endpoint ts =
        (make_api_request_once endpoint (ts 3), 3) := by
      have e1 : make_api_request endpoint ts =
          retryLoop (fun i => make_api_request_once endpoint (ts i)) 2 2 := by
        show retryLoop (fun i => make_api_request_once endpoint (ts i)) 1 (1 + 2) = _
        rw [retryLoop_retry _ 1 1 (hRL 1)]
      have e2 : retryLoop (fun i => make_api_request_once endpoint (ts i)) 2 2 =
          retryLoop (fun i => make_api_request_once endpoint (ts i)) 3 1 := by
        show retryLoop (fun i => make_api_request_once endpoint (ts i)) 2 (0 + 2) = _
        rw [retryLoop_retry _ 2 0 (hRL 2)]
      rw [e1, e2]
      rfl
    refine ⟨by rw [hloop], ?_⟩
    rw [hloop]
    exact (isRateLimited_iff _).mp (hRL 3)

/-- Claim C2 witness: a timeout on the first attempt is returned after one
attempt; three plain 429 responses give 3 attempts and a raised
Rate-Limited. -/
theorem retry_policy_amended_witness :
    make_api_request "/seasons" (fun _ => .timeout) =
      (make_api_request_once "/seasons" .timeout, 1) ∧
    ((make_api_request "/seasons"
        (fun _ => .response ⟨429, Option.none, "", .null⟩)).2 = 3 ∧
      ∃ ra, (make_api_request "/seasons"
        (fun _ => .response ⟨429, Option.none, "", .null⟩)).1 =
          .raised (.rateLimit ra)) :=
  ⟨retry_policy_amended.1 "/seasons" (fun _ => .timeout) (by decide),
    retry_policy_amended.2 "/seasons" (fun _ => .response ⟨429, Option.none, "", .null⟩)
      (fun _ => ⟨⟨429, Option.none, "", .null⟩, rfl, rfl, Or.inl rfl⟩)⟩

/-- Claim C5: extract returns a list body as the same list (elementwise ID
sanitization) regardless of the key; a map containing `error` is returned
unchanged for any key; an ordinary map yields the sanitized value under the
key when present, else the sanitized whole map; any other body is returned
as is. -/
theorem extract_claim :
    (∀ (xs : PyList) (key : String), _extract (.list xs) key = .list (sanitizeList xs)) ∧
    (∀ (xs : PyObj) (key : String), xs.hasKey "error" = true →
      _extract (.dict xs) key = .dict xs) ∧
    (∀ (xs : PyObj) (key : String) (v : PyVal),
      xs.hasKey "error" = false → xs.get key = some v →
      _extract (.dict xs) key = _sanitize_ids v) ∧
    (∀ (xs : PyObj) (key : String),
      xs.hasKey "error" = false → xs.get key = Option.none →
      _extract (.dict xs) key = _sanitize_ids (.dict xs)) ∧
    (∀ (v : PyVal) (key : String), isScalar v = true → _extract v key = v) := by
  refine ⟨?_, ?_, ?_, ?_, ?_⟩
  · intro xs key
    simp [_extract, _sanitize_ids]
  · intro xs key h
    simp [_extract, h]
  · intro xs key v h1 h2
    simp [_extract, h1, PyObj.getD, h2]
  · intro xs key h1 h2
    simp [_extract, h1, PyObj.getD, h2]
  · intro v key h
    cases v <;> simp_all [_extract, isScalar]

/-- Claim C5 witness, exercising all five branches on concrete bodies. -/
theorem extract_claim_witness :
    _extract (.list (.cons (.dict (.cons "id" (.int 4) .nil)) .nil)) "ignored" =
      .list (sanitizeList (.cons (.dict (.cons "id" (.int 4) .nil)) .nil)) ∧
    _extract (.dict (.cons "error" (.str "down") .nil)) "events" =
      .dict (.cons "error" (.str "down") .nil) ∧
    _extract (.dict (.cons "events" (.list .nil) .nil)) "events" =
      _sanitize_ids (.list .nil) ∧
    _extract (.dict (.cons "other" (.list .nil) .nil)) "events" =
      _sanitize_ids (.dict (.cons "other" (.list .nil) .nil)) ∧
    _extract (.str "plain") "events" = .str "plain" := by
  obtain ⟨e1, e2, e3, e4, e5⟩ := extract_claim
  exact ⟨e1 _ "ignored",
    e2 _ "events" (by decide),
    e3 _ "events" (.list .nil) (by decide) (by decide),
    e4 _ "events" (by decide) (by decide),
    e5 _ "events" (by decide)⟩

/-- Claim C6: sanitize_ids leaves no numeric value under an `id` key in any
dict at any depth; a dict with both `id` and `id_str` has its `id` replaced
by the string form of the `id_str` value; a dict with a numeric `id` and no
`id_str` has it replaced by its truncated-toward-zero integer string; every
other entry recurses; non-dict, non-list leaves pass through untouched. -/
theorem sanitize_ids_claim :
    (∀ v : PyVal, noNumericId (_sanitize_ids v) = true) ∧
    (∀ xs : PyObj, xs.hasKey "id_str" = true →
      (_sanitize_ids (.dict xs)).getKey "id" =
        (xs.get "id").map (fun _ => .str (pyStr (xs.getD "id_str" .null)))) ∧
    (∀ (xs : PyObj) (v : PyVal),
      xs.hasKey "id_str" = false → xs.get "id" = some v → isNumeric v = true →
      (_sanitize_ids (.dict xs)).getKey "id" = some (.str (toString (pyToInt v)))) ∧
    (∀ (xs : PyObj) (key : String), key ≠ "id" →
      (_sanitize_ids (.dict xs)).getKey key = (xs.get key).map _sanitize_ids) ∧
    (∀ v : PyVal, isScalar v = true → _sanitize_ids v = v) := by
  refine ⟨noNum_sanitize, ?_, ?_, ?_, sanitize_scalar⟩
  · intro xs h
    simp only [_sanitize_ids, PyVal.getKey]
    exact sanitizeObj_get_id_withStr xs xs h
  · intro xs v h1 h2 h3
    simp only [_sanitize_ids, PyVal.getKey]
    rw [sanitizeObj_get_id_noStr xs xs h1, h2]
    simp [h3]
  · intro xs key h
    simp only [_sanitize_ids, PyVal.getKey]
    exact sanitizeObj_get_ne xs xs key h

/-- Claim C6 witness: the id_str branch, the numeric branch (including float
truncation toward zero), deep recursion, and leaf passthrough on concrete
values. -/
theorem sanitize_ids_claim_witness :
    noNumericId (_sanitize_ids (.dict (.cons "id" (.int 9007199254740993) .nil))) = true ∧
    (_sanitize_ids (.dict (.cons "id" (.int 5) (.cons "id_str" (.str "5") .nil)))).getKey "id" =
      some (.str (pyStr (.str "5"))) ∧
    (_sanitize_ids (.dict (.cons "id" (.float (mkRat (-7) 2)) .nil))).getKey "id" =
      some (.str (toString (pyToInt (.float (mkRat (-7) 2))))) ∧
    (_sanitize_ids (.dict (.cons "nested" (.dict (.cons "id" (.int 3) .nil)) .nil))).getKey
      "nested" = some (_sanitize_ids (.dict (.cons "id" (.int 3) .nil))) ∧
    _sanitize_ids (.str "leaf") = .str "leaf" := by
  obtain ⟨s1, s2, s3, s4, s5⟩ := sanitize_ids_claim
  refine ⟨s1 _, ?_, ?_, ?_, s5 _ (by decide)⟩
  · have := s2 (.cons "id" (.int 5) (.cons "id_str" (.str "5") .nil)) (by decide)
    simpa using this
  · have := s3 (.cons "id" (.float (mkRat (-7) 2)) .nil) (.float (mkRat (-7) 2)) (by decide) (by decide)
      (by decide)
    simpa using this
  · have := s4 (.cons "nested" (.dict (.cons "id" (.int 3) .nil)) .nil) "nested" (by decide)
    simpa using this

/-- Claim C7 counterexample: sanitize_ids is not idempotent. When an id_str
sibling is itself a dict with a numeric id, the first pass stores str() of
the unsanitized dict under `id` while the second pass stores str() of the
sanitized dict, and the two strings differ. -/
theorem sanitize_idem_cex :
    _sanitize_ids (_sanitize_ids (.dict (.cons "id" (.int 0)
        (.cons "id_str" (.dict (.cons "id" (.int 1) .nil)) .nil)))) ≠
      _sanitize_ids (.dict (.cons "id" (.int 0)
        (.cons "id_str" (.dict (.cons "id" (.int 1) .nil)) .nil))) := by decide

/-- Claim C7 (amended): sanitize_ids is idempotent on every value in which
each dict that carries an `id_str` key maps it to a scalar (neither dict nor
list) — in particular on everything the upstream API shape provides, where
id_str is a string. -/
theorem sanitize_idem_amended (v : PyVal) (h : scalarIdStrs v = true) :
    _sanitize_ids (_sanitize_ids v) = _sanitize_ids v :=
  sanitize_idem v h

/-- Claim C7 witness: idempotence at a concrete value with a string id_str
and a nested numeric id. -/
theorem sanitize_idem_amended_witness :
    scalarIdStrs (.dict (.cons "id" (.int 7)
      (.cons "id_str" (.str "9007199254740993")
        (.cons "round" (.dict (.cons "id" (.int 3) .nil)) .nil)))) = true ∧
    _sanitize_ids (_sanitize_ids (.dict (.cons "id" (.int 7)
        (.cons "id_str" (.str "9007199254740993")
          (.cons "round" (.dict (.cons "id" (.int 3) .nil)) .nil))))) =
      _sanitize_ids (.dict (.cons "id" (.int 7)
        (.cons "id_str" (.str "9007199254740993")
          (.cons "round" (.dict (.cons "id" (.int 3) .nil)) .nil)))) :=
  ⟨by decide, sanitize_idem_amended _ (by decide)⟩

/-- Claim C8: each modeled tool rejects invalid input — a non-integer or
non-positive ID string, a non-positive event id, a truthy date not matching
YYYY-MM-DD, an email not matching the fixed pattern — by returning an error
map, and an error-map tool action never reaches the network. -/
theorem validation_claim :
    (∀ player_id : String, pyParseInt player_id = Option.none →
      get_player_events player_id = .errorMap "player_id must be a valid integer.") ∧
    (∀ (player_id : String) (n : Int), pyParseInt player_id = some n → n ≤ 0 →
      get_player_events player_id = .errorMap "player_id must be a positive integer.") ∧
    (∀ email : String, emailMatch email = false →
      get_master_roster_member email = .errorMap "A valid email address is required.") ∧
    (∀ (event_id : Int) (date : Option String), event_id ≤ 0 →
      create_round event_id date = .errorMap "event_id must be a positive integer.") ∧
    (∀ (event_id : Int) (s : String), 0 < event_id → s ≠ "" → dateMatch s = false →
      create_round event_id (some s) = .errorMap "Date must be in YYYY-MM-DD format.") ∧
    (∀ msg : String, performsNetwork (.errorMap msg) = false) := by
  refine ⟨?_, ?_, ?_, ?_, ?_, fun _ => rfl⟩
  · intro player_id h
    simp [get_player_events, h]
  · intro player_id n h1 h2
    simp [get_player_events, h1, h2]
  · intro email h
    simp [get_master_roster_member, h]
  · intro event_id date h
    simp [create_round, h]
  · intro event_id s h1 h2 h3
    simp [create_round, not_le.mpr h1, h2, h3]

/-- Claim C8 witness: the spec examples — player ids "abc" and "-3", the
email "not-an-email", the date "2025/13/40" — all short-circuit to error
maps that perform no network call. -/
theorem validation_claim_witness :
    get_player_events "abc" = .errorMap "player_id must be a valid integer." ∧
    get_player_events "-3" = .errorMap "player_id must be a positive integer." ∧
    get_master_roster_member "not-an-email" =
      .errorMap "A valid email address is required." ∧
    create_round 0 Option.none = .errorMap "event_id must be a positive integer." ∧
    create_round 5 (some "2025/13/40") = .errorMap "Date must be in YYYY-MM-DD format." ∧
    performsNetwork (.errorMap "Date must be in YYYY-MM-DD format.") = false := by
  obtain ⟨v1, v2, v3, v4, v5, v6⟩ := validation_claim
  exact ⟨v1 "abc" (by decide), v2 "-3" (-3) (by decide) (by decide),
    v3 "not-an-email" (by decide), v4 0 Option.none (by decide),
    v5 5 "2025/13/40" (by decide) (by decide) (by decide),
    v6 "Date must be in YYYY-MM-DD format."⟩

/-- Claim C9 counterexample: a decoded body that is a map containing an
`error` key is returned by extract unchanged, so a numeric id in it reaches
the caller un-stringified. -/
theorem extract_ids_cex :
    noNumericId (_extract (.dict (.cons "error" (.str "rate limited")
      (.cons "id" (.int 9007199254740993) .nil))) "events") = false := by decide

/-- Claim C9 (amended): every decoded body passed through sanitize_ids comes
out with no numeric value under an `id` key at any depth, and the same holds
for extract on every body except a map carrying an `error` key, which is
returned unchanged and may retain numeric ids. -/
theorem extract_ids_amended :
    (∀ (v : PyVal) (key : String), isErrorDict v = false →
      noNumericId (_extract v key) = true) ∧
    (∀ v : PyVal, noNumericId (_sanitize_ids v) = true) := by
  refine ⟨?_, noNum_sanitize⟩
  intro v key h
  cases v with
  | dict xs =>
    simp only [isErrorDict] at h
    simp only [_extract, h, if_false]
    exact noNum_sanitize _
  | list xs =>
    simp only [_extract]
    exact noNum_sanitize _
  | null => rfl
  | bool b => rfl
  | int n => rfl
  | float q => rfl
  | str s => rfl

/-- Claim C9 witness: an error-free body normalizes to string ids. -/
theorem extract_ids_amended_witness :
    isErrorDict (.dict (.cons "players"
      (.list (.cons (.dict (.cons "id" (.int 9007199254740993) .nil)) .nil)) .nil)) =
      false ∧
    noNumericId (_extract (.dict (.cons "players"
      (.list (.cons (.dict (.cons "id" (.int 9007199254740993) .nil)) .nil)) .nil))
      "players") = true :=
  ⟨by decide, extract_ids_amended.1 _ "players" (by decide)⟩
